import Mathlib

/-!
Shallow embedding of the Python mock-interview question generator
(`questions_generator.py` and `app.py`).

The filesystem is modelled as a pair of partial maps from student id to the
already-parsed JSON content of the per-student files (`midterm/<id>.json`,
a JSON object of topic to description, and `mygpt/<id>.json`, a JSON object
of category to list of question strings); a missing file is `none` and makes
`open` raise `FileNotFoundError`.  The OpenAI chat-completions client is
modelled as an oracle from the outbound request to either an API error or a
chat completion (a list of choices); the embedding records every request the
oracle is given, so that "exactly one request per turn" is provable.
-/

namespace MockInterview

/-- Conversation header placed in `self.conversation_history` at construction
(`questions_generator.py` line 44). -/
def transcriptHeader : String := "# 使用者與AI的對話內容"

/-- Parsed filesystem: per-student midterm file (mapping topic to description,
in insertion order) and mygpt file (mapping category to question list).
`none` models a missing file. -/
structure FS where
  midtermFile : String → Option (List (String × String))
  mygptFile : String → Option (List (String × List String))

/-- Errors raised while constructing a `QuestionsGenerator`: Python raises
`FileNotFoundError` when `open` cannot find the per-student file.  This is the
spec's `StudentDataNotFound` error kind. -/
inductive LoadError where
  | fileNotFoundError (path : String)
deriving DecidableEq, Repr

/-- Rendering of the midterm JSON object, from `_get_midterm` lines 120-121:
`result += f"{key}: {value}\n"` for each entry in order. -/
def render_midterm_items (items : List (String × String)) : String :=
  items.foldl (fun result kv => result ++ kv.1 ++ ": " ++ kv.2 ++ "\n") ""

/-- The numbered question list of `_get_mygpt` lines 140-141:
`enumerate(value, start=1)` with `result += f"{idx}. {question}\n"`. -/
def render_numbered (start : Nat) : List String → String
  | [] => ""
  | q :: qs => toString start ++ ". " ++ q ++ "\n" ++ render_numbered (start + 1) qs

/-- Rendering of the mygpt JSON object, from `_get_mygpt` lines 137-143:
per category `result += f"{key}:\n\n"`, then the 1-based numbered questions,
then `result += "\n"`. -/
def render_mygpt_items (items : List (String × List String)) : String :=
  items.foldl (fun result kv => result ++ kv.1 ++ ":\n\n" ++ render_numbered 1 kv.2 ++ "\n") ""

/-- Embedding of `_get_midterm` (lines 108-123): opens `midterm/{id}.json`
(raising `FileNotFoundError` when missing) and renders each entry as a
`"key: value"` line. -/
def get_midterm (fs : FS) (student_id : String) : Except LoadError String :=
  match fs.midtermFile student_id with
  | none => .error (.fileNotFoundError ("midterm/" ++ student_id ++ ".json"))
  | some midterm => .ok (render_midterm_items midterm)

/-- Embedding of `_get_mygpt` (lines 125-145): opens `mygpt/{id}.json`
(raising `FileNotFoundError` when missing) and renders each category as a
header line followed by a 1-based numbered question list and a blank line. -/
def get_mygpt (fs : FS) (student_id : String) : Except LoadError String :=
  match fs.mygptFile student_id with
  | none => .error (.fileNotFoundError ("mygpt/" ++ student_id ++ ".json"))
  | some mygpt => .ok (render_mygpt_items mygpt)

/-- Embedding of `_initialize_user_prompt_template` (lines 81-99): the f-string
`f"\n        # 期中考弱項\n        {midterm}\n\n        # 問題\n        {mygpt}\n        "`
after fetching both per-student renderings. -/
def initialize_user_prompt_template (fs : FS) (student_id : String) :
    Except LoadError String :=
  match get_midterm fs student_id with
  | .error e => .error e
  | .ok midterm =>
    match get_mygpt fs student_id with
    | .error e => .error e
    | .ok mygpt =>
      .ok ("\n        # 期中考弱項\n        " ++ midterm ++
        "\n\n        # 問題\n        " ++ mygpt ++ "\n        ")

/-- The static persona/protocol text of `_initialize_system_prompt_template`
(lines 59-75), everything of the f-string before the interpolation of
`self.user_prompt_template`. -/
def systemPreamble : String :=
  "\n# 背景設定\n\n" ++
  "1. 你是一位大學教師，為人客氣和善，不會使用命令語氣，進行口頭面試測驗，就像語音對話的習慣一樣，一次問一個問題。\n\n" ++
  "2. 你講授「Python - 程式設計」課程，你會接收到學生詢問的很多問題，你要根據這些問題歷史去評估學生的知識遷移的程度。\n\n" ++
  "3. 現在請與學生以對話方式進行口頭面試測驗，目標為評估學生「根據問題將Python或其他程式語言或其他知識技能，進行知識轉化的過程以及知識遷移之程度與能力」。整個口頭面試測驗過程將分為兩個階段，一次問一個問題。\n\n" ++
  "    3.1. 第一階段：說明本問卷的目的，解釋「什麼是遷移學習」。接著一次問一個題目，分別詢問學生的資本資訊：姓名、學號、科系、年級等基本資料。\n    \n" ++
  "    3.2. 第二階段：一次問一個問題，問題具有接續性，請以大約10個開放式申論問答題，藉由學生的回答，評估學生的知識遷移程度與能力，你將發揮好奇心，透過學生的回答，進一步詢問更詳細的內容。\n    \n" ++
  "學生可以隨時停止口頭面試測驗，口頭面試測驗結束後，請明確告知口試結束，並根據之前學生回覆內容給予正面的講評與鼓勵，以鼓勵學生繼續追求知識。\n\n" ++
  "4. 你會收到使用者與AI的對話內容，請根據對話內容，進行下一個問題的提問，一次問一個問題。\n\n"

/-- Embedding of `_initialize_system_prompt_template` (lines 52-79): the static
preamble, then `{self.user_prompt_template}`, then the final newline before the
closing triple quote. -/
def initialize_system_prompt_template (user_prompt_template : String) : String :=
  systemPreamble ++ user_prompt_template ++ "\n"

/-- State of a `QuestionsGenerator` object (`__init__`, lines 37-50; the
OpenAI client holds no relevant state and is modelled as the oracle argument
of the methods that use it). -/
structure QuestionsGenerator where
  student_id : String
  user_prompt_template : String
  system_prompt_template : String
  conversation_history : List String
deriving DecidableEq, Repr, Inhabited

/-- Embedding of `QuestionsGenerator.__init__` (lines 37-50): builds the user
prompt template (reading both per-student files; an exception aborts
construction with no object), the system prompt template, and the initial
conversation history holding only the header. -/
def QuestionsGenerator.init (fs : FS) (student_id : String) :
    Except LoadError QuestionsGenerator :=
  match initialize_user_prompt_template fs student_id with
  | .error e => .error e
  | .ok upt =>
    .ok { student_id := student_id
          user_prompt_template := upt
          system_prompt_template := initialize_system_prompt_template upt
          conversation_history := [transcriptHeader] }

/-- Embedding of `_add_conversation_history` (lines 101-106):
`self.conversation_history.append(content)`. -/
def QuestionsGenerator.add_conversation_history (s : QuestionsGenerator)
    (content : String) : QuestionsGenerator :=
  { s with conversation_history := s.conversation_history ++ [content] }

/-- Message role of the chat-completions API. -/
inductive Role where
  | system
  | user
deriving DecidableEq, Repr

/-- One message entry of the outbound request. -/
structure Message where
  role : Role
  content : String
deriving DecidableEq, Repr

/-- The outbound chat-completions request assembled in `_get_questions`
(lines 159-168): the message list, the model identifier, and the temperature. -/
structure ChatRequest where
  model : String
  messages : List Message
  temperature : ℚ
deriving DecidableEq, Repr

/-- One choice of a chat completion (`choice.message.content`). -/
structure Choice where
  content : String
deriving DecidableEq, Repr

/-- A chat completion returned by the API: its list of choices. -/
structure ChatCompletion where
  choices : List Choice
deriving DecidableEq, Repr

/-- What a turn can raise: an API error propagated from the client call, or
the `IndexError` Python would raise at `choices[0]` on an empty choice list. -/
inductive TurnError (ε : Type) where
  | api (e : ε)
  | indexError
deriving DecidableEq, Repr

/-- Outcome of `_get_questions` / `start_process`: the returned text or error,
the state of the generator object afterwards (Python mutates `self` in place,
so on an exception the object keeps the appends done before the raise), and
the list of outbound requests issued during the call. -/
structure TurnResult (ε : Type) where
  response : Except (TurnError ε) String
  state : QuestionsGenerator
  requests : List ChatRequest
deriving Repr

/-- Rendering of the transcript sent as the user message, from
`_get_questions` line 157: `("\n").join(self.conversation_history)`. -/
def render_transcript (transcript : List String) : String :=
  String.intercalate "\n" transcript

/-- The request `_get_questions` sends (lines 157-168): two messages, the
system prompt template and the newline-joined conversation history, with the
given model and temperature 0.6. -/
def QuestionsGenerator.buildRequest (s : QuestionsGenerator) (model : String) :
    ChatRequest :=
  { model := model
    messages :=
      [ { role := .system, content := s.system_prompt_template }
      , { role := .user, content := render_transcript s.conversation_history } ]
    temperature := 0.6 }

/-- Embedding of `_get_questions` (lines 147-171): join the history, send the
two-message request once, and on success append `choices[0].message.content`
to the history and return it.  A client error propagates; an empty choice
list raises at the indexing. -/
def QuestionsGenerator.get_questions {ε : Type}
    (respond : ChatRequest → Except ε ChatCompletion) (model : String)
    (s : QuestionsGenerator) : TurnResult ε :=
  let req := s.buildRequest model
  match respond req with
  | .error e => { response := .error (.api e), state := s, requests := [req] }
  | .ok completion =>
    match completion.choices with
    | [] => { response := .error .indexError, state := s, requests := [req] }
    | choice :: _ =>
      { response := .ok choice.content
        state := s.add_conversation_history choice.content
        requests := [req] }

/-- Embedding of `start_process` (lines 173-186): fix the model `"gpt-4o"`,
append the user content to the history, then run `_get_questions` and return
its result. -/
def QuestionsGenerator.start_process {ε : Type}
    (respond : ChatRequest → Except ε ChatCompletion) (user_content : String)
    (s : QuestionsGenerator) : TurnResult ε :=
  QuestionsGenerator.get_questions respond "gpt-4o"
    (s.add_conversation_history user_content)

/-- Session state of `app.py`: the generator, the displayed chat log of
(speaker, message) pairs, the pending user input, and the clear flag. -/
structure AppState where
  generator : QuestionsGenerator
  chat_log : List (String × String)
  user_input : String
  clear_input : Bool
deriving DecidableEq, Repr

/-- Embedding of `process_input` (`app.py` lines 9-16): append the
`("你", user_input)` entry, call `start_process`, append the `("AI", response)`
entry and set the clear flag.  On an exception the Streamlit session state
keeps the mutations done before the raise, so the error case returns the
state with the user entry logged and the generator already holding the user
turn. -/
def process_input {ε : Type} (respond : ChatRequest → Except ε ChatCompletion)
    (st : AppState) : AppState × Option (TurnError ε) :=
  let logged : AppState :=
    { st with chat_log := st.chat_log ++ [("你", st.user_input)] }
  let tr := logged.generator.start_process respond st.user_input
  match tr.response with
  | .error e => ({ logged with generator := tr.state }, some e)
  | .ok response =>
    ({ logged with
        generator := tr.state
        chat_log := logged.chat_log ++ [("AI", response)]
        clear_input := true }, none)

/-- Embedding of the first script run of `app.py` (lines 18-29): with an empty
session state, construct the generator for student `111403538`, initialise the
chat log and flags, seed `user_input` with the fixed trigger phrase `開始口試`,
and run `process_input` before any human input. -/
def app_initial_run {ε : Type} (fs : FS)
    (respond : ChatRequest → Except ε ChatCompletion) :
    Except LoadError (AppState × Option (TurnError ε)) :=
  match QuestionsGenerator.init fs "111403538" with
  | .error e => .error e
  | .ok g =>
    .ok (process_input respond
      { generator := g
        chat_log := []
        user_input := "開始口試"
        clear_input := false })

/-! ### Helper lemmas about `String.intercalate` (Python `str.join`) -/

theorem intercalate_go_append (s x : String) : ∀ (l : List String) (acc : String),
    String.intercalate.go (x ++ acc) s l = x ++ String.intercalate.go acc s l := by
  intro l
  induction l with
  | nil => intro acc; simp [String.intercalate.go]
  | cons a as ih =>
    intro acc
    rw [String.intercalate.go, String.intercalate.go]
    have h := ih (acc ++ s ++ a)
    simpa [String.append_assoc] using h

theorem intercalate_cons_of_ne_nil (s a : String) (l : List String) (h : l ≠ []) :
    String.intercalate s (a :: l) = a ++ s ++ String.intercalate s l := by
  cases l with
  | nil => exact absurd rfl h
  | cons b bs =>
    show String.intercalate.go a s (b :: bs) = a ++ s ++ String.intercalate.go b s bs
    rw [String.intercalate.go]
    exact intercalate_go_append s (a ++ s) bs b

theorem intercalate_singleton (s a : String) : String.intercalate s [a] = a := rfl

theorem intercalate_append_singleton (s : String) : ∀ (l : List String) (t : String),
    l ≠ [] → String.intercalate s (l ++ [t]) = String.intercalate s l ++ s ++ t := by
  intro l
  induction l with
  | nil => intro t h; exact absurd rfl h
  | cons a as ih =>
    intro t _
    cases as with
    | nil => simp [intercalate_cons_of_ne_nil, intercalate_singleton]
    | cons b bs =>
      rw [List.cons_append,
        intercalate_cons_of_ne_nil s a ((b :: bs) ++ [t]) (by simp),
        intercalate_cons_of_ne_nil s a (b :: bs) (by simp),
        ih t (by simp)]
      simp [String.append_assoc]

theorem intercalate_cons_starts_with (s a : String) (l : List String) :
    ∃ tail, String.intercalate s (a :: l) = a ++ tail := by
  cases l with
  | nil => exact ⟨"", by simp [intercalate_singleton]⟩
  | cons b bs =>
    exact ⟨s ++ String.intercalate s (b :: bs), by
      rw [intercalate_cons_of_ne_nil s a (b :: bs) (by simp), String.append_assoc]⟩

/-! ### Concrete fixtures used by witnesses -/

/-- Sample filesystem with the spec's example data for student `111403538`. -/
def fsEx : FS :=
  { midtermFile := fun sid =>
      if sid = "111403538" then some [("recursion", "weak")] else none
    mygptFile := fun sid =>
      if sid = "111403538" then
        some [("loops", ["why use a for-loop?", "what is an infinite loop?"])]
      else none }

/-- Sample filesystem with no files at all. -/
def fsEmpty : FS := { midtermFile := fun _ => none, mygptFile := fun _ => none }

/-- Small concrete generator state used by witnesses. -/
def genSmall : QuestionsGenerator :=
  { student_id := "s1"
    user_prompt_template := "upt"
    system_prompt_template := "sys"
    conversation_history := [transcriptHeader] }

/-- The generator state produced by constructing on `fsEx`. -/
def genEx : QuestionsGenerator :=
  ((QuestionsGenerator.init fsEx "111403538").toOption).getD default

/-- Oracle that always answers with a single fixed choice. -/
def respondOk (text : String) : ChatRequest → Except Nat ChatCompletion :=
  fun _ => .ok { choices := [{ content := text }] }

/-- Oracle that always fails with a fixed API error. -/
def respondErr (e : Nat) : ChatRequest → Except Nat ChatCompletion :=
  fun _ => .error e

/-! ### Case equations for `_get_questions` and `start_process` -/

theorem get_questions_eq_of_error {ε : Type}
    (respond : ChatRequest → Except ε ChatCompletion) (model : String)
    (s : QuestionsGenerator) (e : ε)
    (h : respond (s.buildRequest model) = .error e) :
    s.get_questions respond model
      = { response := .error (.api e), state := s,
          requests := [s.buildRequest model] } := by
  simp only [QuestionsGenerator.get_questions]
  rw [h]

theorem get_questions_eq_of_ok {ε : Type}
    (respond : ChatRequest → Except ε ChatCompletion) (model : String)
    (s : QuestionsGenerator) (choice : Choice) (rest : List Choice)
    (h : respond (s.buildRequest model) = .ok { choices := choice :: rest }) :
    s.get_questions respond model
      = { response := .ok choice.content
          state := s.add_conversation_history choice.content
          requests := [s.buildRequest model] } := by
  simp only [QuestionsGenerator.get_questions]
  rw [h]

theorem get_questions_eq_of_empty {ε : Type}
    (respond : ChatRequest → Except ε ChatCompletion) (model : String)
    (s : QuestionsGenerator)
    (h : respond (s.buildRequest model) = .ok { choices := [] }) :
    s.get_questions respond model
      = { response := .error .indexError, state := s,
          requests := [s.buildRequest model] } := by
  simp only [QuestionsGenerator.get_questions]
  rw [h]

theorem start_process_eq (s : QuestionsGenerator) {ε : Type}
    (respond : ChatRequest → Except ε ChatCompletion) (u : String) :
    s.start_process respond u
      = (s.add_conversation_history u).get_questions respond "gpt-4o" := rfl

/-! ### Claim theorems -/

/-- C1.  For every session and user turn text, `start_process` appends the
user text to the transcript, issues exactly the completion request built from
the session's system instruction and the rendered transcript (user text
included) at temperature 0.6 with model `gpt-4o`, appends the returned
completion text to the transcript, and returns that same completion text. -/
theorem start_process_spec {ε : Type}
    (respond : ChatRequest → Except ε ChatCompletion)
    (s : QuestionsGenerator) (u : String)
    (choice : Choice) (rest : List Choice)
    (hresp : respond ((s.add_conversation_history u).buildRequest "gpt-4o")
      = .ok { choices := choice :: rest }) :
    (s.start_process respond u).response = .ok choice.content ∧
    (s.start_process respond u).state.conversation_history
      = s.conversation_history ++ [u, choice.content] ∧
    (s.start_process respond u).requests
      = [{ model := "gpt-4o"
           messages :=
             [ { role := .system, content := s.system_prompt_template }
             , { role := .user,
                 content := render_transcript (s.conversation_history ++ [u]) } ]
           temperature := 0.6 }] ∧
    (s.start_process respond u).state.system_prompt_template
      = s.system_prompt_template := by
  rw [start_process_eq, get_questions_eq_of_ok respond "gpt-4o"
    (s.add_conversation_history u) choice rest hresp]
  refine ⟨rfl, ?_, ?_, rfl⟩
  · simp [QuestionsGenerator.add_conversation_history]
  · simp [QuestionsGenerator.buildRequest, QuestionsGenerator.add_conversation_history]

/-- Witness for C1 at a concrete session state, user text and oracle. -/
theorem start_process_spec_witness :
    (genSmall.start_process (respondOk "next question") "hello").response
      = .ok "next question" ∧
    (genSmall.start_process (respondOk "next question") "hello").state.conversation_history
      = genSmall.conversation_history ++ ["hello", "next question"] ∧
    (genSmall.start_process (respondOk "next question") "hello").requests
      = [{ model := "gpt-4o"
           messages :=
             [ { role := .system, content := genSmall.system_prompt_template }
             , { role := .user,
                 content := render_transcript (genSmall.conversation_history ++ ["hello"]) } ]
           temperature := 0.6 }] ∧
    (genSmall.start_process (respondOk "next question") "hello").state.system_prompt_template
      = genSmall.system_prompt_template :=
  start_process_spec (respondOk "next question") genSmall "hello"
    { content := "next question" } [] rfl

/-- C4.  Every `_get_questions` call issues exactly one outbound request; that
request carries exactly two messages, the system-role system instruction and
the user-role rendered transcript, the given model identifier, and temperature
0.6; and when the API answers, the single top choice's text is returned. -/
theorem get_questions_request_spec {ε : Type}
    (respond : ChatRequest → Except ε ChatCompletion)
    (model : String) (s : QuestionsGenerator) :
    (s.get_questions respond model).requests = [s.buildRequest model] ∧
    (s.buildRequest model).messages
      = [ { role := .system, content := s.system_prompt_template }
        , { role := .user, content := render_transcript s.conversation_history } ] ∧
    (s.buildRequest model).model = model ∧
    (s.buildRequest model).temperature = 0.6 ∧
    (∀ choice rest, respond (s.buildRequest model) = .ok { choices := choice :: rest } →
      (s.get_questions respond model).response = .ok choice.content) := by
  refine ⟨?_, rfl, rfl, rfl, ?_⟩
  · cases h : respond (s.buildRequest model) with
    | error e => rw [get_questions_eq_of_error respond model s e h]
    | ok comp =>
      cases hc : comp.choices with
      | nil =>
        rw [get_questions_eq_of_empty respond model s
          (by rw [h]; cases comp; simp_all)]
      | cons choice rest =>
        rw [get_questions_eq_of_ok respond model s choice rest
          (by rw [h]; cases comp; simp_all)]
  · intro choice rest hresp
    rw [get_questions_eq_of_ok respond model s choice rest hresp]

/-- Witness for C4 at a concrete state, model and oracle. -/
theorem get_questions_request_spec_witness :
    (genSmall.get_questions (respondOk "reply") "gpt-4o").requests
      = [genSmall.buildRequest "gpt-4o"] ∧
    (genSmall.buildRequest "gpt-4o").messages
      = [ { role := .system, content := genSmall.system_prompt_template }
        , { role := .user,
            content := render_transcript genSmall.conversation_history } ] ∧
    (genSmall.buildRequest "gpt-4o").model = "gpt-4o" ∧
    (genSmall.buildRequest "gpt-4o").temperature = 0.6 ∧
    (genSmall.get_questions (respondOk "reply") "gpt-4o").response = .ok "reply" := by
  obtain ⟨h1, h2, h3, h4, h5⟩ :=
    get_questions_request_spec (respondOk "reply") "gpt-4o" genSmall
  exact ⟨h1, h2, h3, h4, h5 { content := "reply" } [] rfl⟩

/-- C5.  For every student id whose midterm file is missing, construction
fails with the `FileNotFoundError` on `midterm/<id>.json` (the spec's
`StudentDataNotFound` kind) and no generator object is produced at all. -/
theorem init_missing_midterm_spec (fs : FS) (sid : String)
    (h : fs.midtermFile sid = none) :
    QuestionsGenerator.init fs sid
      = .error (.fileNotFoundError ("midterm/" ++ sid ++ ".json")) ∧
    ∀ g, QuestionsGenerator.init fs sid ≠ .ok g := by
  have hmain : QuestionsGenerator.init fs sid
      = .error (.fileNotFoundError ("midterm/" ++ sid ++ ".json")) := by
    simp only [QuestionsGenerator.init, initialize_user_prompt_template,
      get_midterm, h]
  exact ⟨hmain, fun g hg => by rw [hmain] at hg; exact Except.noConfusion hg⟩

/-- Witness for C5 on the empty filesystem. -/
theorem init_missing_midterm_spec_witness :
    QuestionsGenerator.init fsEmpty "111403538"
      = .error (.fileNotFoundError ("midterm/" ++ "111403538" ++ ".json")) ∧
    ∀ g, QuestionsGenerator.init fsEmpty "111403538" ≠ .ok g :=
  init_missing_midterm_spec fsEmpty "111403538" rfl

/-- C6.  When the remote call fails, the error reaches the caller unchanged
(injected by the embedding's `api` constructor), exactly one request was
issued (no retry), and the transcript already holds the appended user turn,
which is not rolled back. -/
theorem start_process_error_spec {ε : Type}
    (respond : ChatRequest → Except ε ChatCompletion)
    (s : QuestionsGenerator) (u : String) (e : ε)
    (hresp : respond ((s.add_conversation_history u).buildRequest "gpt-4o") = .error e) :
    (s.start_process respond u).response = .error (.api e) ∧
    (s.start_process respond u).state.conversation_history
      = s.conversation_history ++ [u] ∧
    (s.start_process respond u).requests
      = [(s.add_conversation_history u).buildRequest "gpt-4o"] := by
  rw [start_process_eq, get_questions_eq_of_error respond "gpt-4o"
    (s.add_conversation_history u) e hresp]
  exact ⟨rfl, rfl, rfl⟩

/-- Witness for C6 at a concrete failing oracle. -/
theorem start_process_error_spec_witness :
    (genSmall.start_process (respondErr 42) "hello").response = .error (.api 42) ∧
    (genSmall.start_process (respondErr 42) "hello").state.conversation_history
      = genSmall.conversation_history ++ ["hello"] ∧
    (genSmall.start_process (respondErr 42) "hello").requests
      = [(genSmall.add_conversation_history "hello").buildRequest "gpt-4o"] :=
  start_process_error_spec (respondErr 42) genSmall "hello" 42 rfl

/-- C7.  `_add_conversation_history` is strictly additive: it appends the text
verbatim at the end, grows the transcript by exactly one, leaves every prior
entry untouched, and every turn operation only extends the transcript (the
old history stays a prefix of the new one). -/
theorem add_conversation_history_spec (s : QuestionsGenerator) (c : String) :
    (s.add_conversation_history c).conversation_history
      = s.conversation_history ++ [c] ∧
    (s.add_conversation_history c).conversation_history.length
      = s.conversation_history.length + 1 ∧
    (s.add_conversation_history c).conversation_history.take
        s.conversation_history.length = s.conversation_history ∧
    (∀ (ε : Type) (respond : ChatRequest → Except ε ChatCompletion) (u : String),
      s.conversation_history
        <+: (QuestionsGenerator.start_process respond u s).state.conversation_history) := by
  refine ⟨rfl, by simp [QuestionsGenerator.add_conversation_history],
    by simp [QuestionsGenerator.add_conversation_history], ?_⟩
  intro ε respond u
  rw [start_process_eq]
  cases h : respond ((s.add_conversation_history u).buildRequest "gpt-4o") with
  | error e =>
    rw [get_questions_eq_of_error respond "gpt-4o" (s.add_conversation_history u) e h]
    exact ⟨[u], by simp [QuestionsGenerator.add_conversation_history]⟩
  | ok comp =>
    cases hc : comp.choices with
    | nil =>
      rw [get_questions_eq_of_empty respond "gpt-4o" (s.add_conversation_history u)
        (by rw [h]; cases comp; simp_all)]
      exact ⟨[u], by simp [QuestionsGenerator.add_conversation_history]⟩
    | cons choice cs =>
      rw [get_questions_eq_of_ok respond "gpt-4o" (s.add_conversation_history u)
        choice cs (by rw [h]; cases comp; simp_all)]
      exact ⟨[u, choice.content],
        by simp [QuestionsGenerator.add_conversation_history]⟩

/-! ### Helper lemmas about `String.join` and string folds -/

theorem str_foldl_op : ∀ (l : List String) (acc : String),
    l.foldl (· ++ ·) acc = acc ++ l.foldl (· ++ ·) "" := by
  intro l
  induction l with
  | nil => intro acc; simp [String.append_empty]
  | cons a as ih =>
    intro acc
    simp only [List.foldl_cons]
    rw [ih (acc ++ a), ih ("" ++ a)]
    simp [String.append_assoc]

theorem str_join_cons (a : String) (l : List String) :
    String.join (a :: l) = a ++ String.join l := by
  simp only [String.join, List.foldl_cons]
  rw [str_foldl_op l ("" ++ a)]
  simp

theorem foldl_append_join {α : Type} (step : String → α → String) (f : α → String)
    (hstep : ∀ r x, step r x = r ++ f x) :
    ∀ (l : List α) (acc : String), l.foldl step acc = acc ++ String.join (l.map f) := by
  intro l
  induction l with
  | nil => intro acc; simp [String.join, String.append_empty]
  | cons a as ih =>
    intro acc
    simp only [List.foldl_cons, List.map_cons]
    rw [ih (step acc a), hstep, str_join_cons, String.append_assoc]

set_option maxRecDepth 4000 in
/-- C2.  The midterm source renders as one `"key: value"` line per entry, and
the prior-questions source renders per category as a category header followed
by a 1-based numbered question list and a blank line; on the spec's example
data for student `111403538` the rendered context block contains
`recursion: weak` and a `loops` section with items `1. why use a for-loop?`
and `2. what is an infinite loop?`. -/
theorem render_context_spec :
    (∀ items : List (String × String), render_midterm_items items
      = String.join (items.map fun kv => kv.1 ++ ": " ++ kv.2 ++ "\n")) ∧
    (∀ (i : Nat) (qs : List String), render_numbered i qs
      = String.join ((List.enumFrom i qs).map fun p =>
          toString p.1 ++ ". " ++ p.2 ++ "\n")) ∧
    (∀ items : List (String × List String), render_mygpt_items items
      = String.join (items.map fun kv =>
          kv.1 ++ ":\n\n" ++ render_numbered 1 kv.2 ++ "\n")) ∧
    (initialize_user_prompt_template fsEx "111403538"
      = .ok ("\n        # 期中考弱項\n        recursion: weak\n\n\n        # 問題\n        " ++
          "loops:\n\n1. why use a for-loop?\n2. what is an infinite loop?\n\n\n        ") ∧
      "recursion: weak".data
        <:+: ("\n        # 期中考弱項\n        recursion: weak\n\n\n        # 問題\n        " ++
          "loops:\n\n1. why use a for-loop?\n2. what is an infinite loop?\n\n\n        ").data ∧
      "loops:\n\n1. why use a for-loop?\n2. what is an infinite loop?\n".data
        <:+: ("\n        # 期中考弱項\n        recursion: weak\n\n\n        # 問題\n        " ++
          "loops:\n\n1. why use a for-loop?\n2. what is an infinite loop?\n\n\n        ").data) := by
  refine ⟨?_, ?_, ?_, rfl, by decide, by decide⟩
  · intro items
    have h := foldl_append_join
      (fun result kv => result ++ kv.1 ++ ": " ++ kv.2 ++ "\n")
      (fun kv : String × String => kv.1 ++ ": " ++ kv.2 ++ "\n")
      (fun r kv => by simp [String.append_assoc]) items ""
    simpa [render_midterm_items] using h
  · intro i qs
    induction qs generalizing i with
    | nil => simp [render_numbered, List.enumFrom, String.join]
    | cons q qs ih =>
      simp only [render_numbered, List.enumFrom, List.map_cons, str_join_cons, ih]
  · intro items
    have h := foldl_append_join
      (fun result kv => result ++ kv.1 ++ ":\n\n" ++ render_numbered 1 kv.2 ++ "\n")
      (fun kv : String × List String => kv.1 ++ ":\n\n" ++ render_numbered 1 kv.2 ++ "\n")
      (fun r kv => by simp [String.append_assoc]) items ""
    simpa [render_mygpt_items] using h

/-- The rendered per-student context block as the spec describes it: the
midterm-weaknesses block first, then the prior-questions block, wrapped in
the fixed f-string text of `_initialize_user_prompt_template`. -/
def userContextBlock (m : List (String × String)) (g : List (String × List String)) :
    String :=
  "\n        # 期中考弱項\n        " ++ render_midterm_items m ++
    "\n\n        # 問題\n        " ++ render_mygpt_items g ++ "\n        "

/-- C3.  For every loaded student context, construction is a pure function of
the loaded data: the system instruction is exactly the fixed persona/protocol
preamble followed by the rendered context blocks in fixed order (midterm
weaknesses first, then prior questions) and a trailing newline.  Purity and
determinism hold because the result is an equation in the loaded data alone;
the shallow embedding has no other effect. -/
theorem build_system_instruction_spec (fs : FS) (sid : String)
    (m : List (String × String)) (g : List (String × List String))
    (hm : fs.midtermFile sid = some m) (hg : fs.mygptFile sid = some g) :
    QuestionsGenerator.init fs sid
      = .ok { student_id := sid
              user_prompt_template := userContextBlock m g
              system_prompt_template := systemPreamble ++ userContextBlock m g ++ "\n"
              conversation_history := [transcriptHeader] } := by
  simp only [QuestionsGenerator.init, initialize_user_prompt_template,
    get_midterm, get_mygpt, hm, hg]
  rfl

/-- Witness for C3 on the example filesystem. -/
theorem build_system_instruction_spec_witness :
    QuestionsGenerator.init fsEx "111403538"
      = .ok { student_id := "111403538"
              user_prompt_template :=
                userContextBlock [("recursion", "weak")]
                  [("loops", ["why use a for-loop?", "what is an infinite loop?"])]
              system_prompt_template :=
                systemPreamble ++
                  userContextBlock [("recursion", "weak")]
                    [("loops", ["why use a for-loop?", "what is an infinite loop?"])] ++ "\n"
              conversation_history := [transcriptHeader] } :=
  build_system_instruction_spec fsEx "111403538" [("recursion", "weak")]
    [("loops", ["why use a for-loop?", "what is an infinite loop?"])] rfl rfl

/-- C8.  `render_transcript` reproduces all turns in insertion order joined by
newlines: a single turn renders as itself, appending one turn appends exactly
one newline-separated segment at the end, and repeated calls without
intervening appends agree. -/
theorem render_transcript_spec :
    (∀ t, render_transcript [t] = t) ∧
    (∀ h t, h ≠ [] →
      render_transcript (h ++ [t]) = render_transcript h ++ "\n" ++ t) ∧
    (∀ h, render_transcript h = render_transcript h) :=
  ⟨fun t => intercalate_singleton "\n" t,
   fun h t hne => intercalate_append_singleton "\n" h t hne,
   fun _ => rfl⟩

/-- Witness for C8 at a concrete two-turn transcript. -/
theorem render_transcript_spec_witness :
    render_transcript (["a"] ++ ["b"]) = render_transcript ["a"] ++ "\n" ++ "b" :=
  render_transcript_spec.2.1 ["a"] "b" (by simp)

/-! ### Helper lemmas about construction and reachable generator states -/

theorem init_history_eq (fs : FS) (sid : String) (g : QuestionsGenerator)
    (hg : QuestionsGenerator.init fs sid = .ok g) :
    g.conversation_history = [transcriptHeader] := by
  unfold QuestionsGenerator.init at hg
  cases h : initialize_user_prompt_template fs sid with
  | error e => rw [h] at hg; exact Except.noConfusion hg
  | ok upt =>
    rw [h] at hg
    rw [← Except.ok.inj hg]

/-- Generator states reachable in one session: the constructed state, then any
number of `start_process` turns. -/
inductive Reachable {ε : Type} (fs : FS) (sid : String)
    (respond : ChatRequest → Except ε ChatCompletion) : QuestionsGenerator → Prop
  | init (g : QuestionsGenerator) :
      QuestionsGenerator.init fs sid = .ok g → Reachable fs sid respond g
  | step (g : QuestionsGenerator) (u : String) : Reachable fs sid respond g →
      Reachable fs sid respond ((g.start_process respond u).state)

theorem reachable_history_cons {ε : Type} (fs : FS) (sid : String)
    (respond : ChatRequest → Except ε ChatCompletion) (s : QuestionsGenerator)
    (hs : Reachable fs sid respond s) :
    ∃ rest, s.conversation_history = transcriptHeader :: rest := by
  induction hs with
  | init g hg => exact ⟨[], init_history_eq fs sid g hg⟩
  | step g u hg ih =>
    obtain ⟨rest, hrest⟩ := ih
    rw [start_process_eq]
    cases h : respond ((g.add_conversation_history u).buildRequest "gpt-4o") with
    | error e =>
      rw [get_questions_eq_of_error respond "gpt-4o" (g.add_conversation_history u) e h]
      exact ⟨rest ++ [u], by simp [QuestionsGenerator.add_conversation_history, hrest]⟩
    | ok comp =>
      cases hc : comp.choices with
      | nil =>
        rw [get_questions_eq_of_empty respond "gpt-4o" (g.add_conversation_history u)
          (by rw [h]; cases comp; simp_all)]
        exact ⟨rest ++ [u], by simp [QuestionsGenerator.add_conversation_history, hrest]⟩
      | cons choice cs =>
        rw [get_questions_eq_of_ok respond "gpt-4o" (g.add_conversation_history u)
          choice cs (by rw [h]; cases comp; simp_all)]
        exact ⟨rest ++ [u, choice.content],
          by simp [QuestionsGenerator.add_conversation_history, hrest]⟩

/-- C9.  On the first script run, before any human input, the interaction loop
seeds `user_input` with the fixed trigger phrase `開始口試` and processes it as
a normal turn: the displayed chat log afterwards is exactly the seeded user
turn followed by the assistant's reply, and the generator's transcript holds
the header, the seeded turn and the reply. -/
theorem app_seed_first_turn_spec {ε : Type} (fs : FS)
    (respond : ChatRequest → Except ε ChatCompletion) (g : QuestionsGenerator)
    (choice : Choice) (rest : List Choice)
    (hg : QuestionsGenerator.init fs "111403538" = .ok g)
    (hresp : respond ((g.add_conversation_history "開始口試").buildRequest "gpt-4o")
      = .ok { choices := choice :: rest }) :
    app_initial_run fs respond
      = .ok ({ generator :=
                 (g.add_conversation_history "開始口試").add_conversation_history
                   choice.content
               chat_log := [("你", "開始口試"), ("AI", choice.content)]
               user_input := "開始口試"
               clear_input := true }, none) ∧
    ((g.add_conversation_history "開始口試").add_conversation_history
        choice.content).conversation_history
      = [transcriptHeader, "開始口試", choice.content] := by
  constructor
  · unfold app_initial_run
    rw [hg]
    simp only [process_input]
    rw [start_process_eq,
      get_questions_eq_of_ok respond "gpt-4o" (g.add_conversation_history "開始口試")
        choice rest hresp]
    simp
  · have hist := init_history_eq fs "111403538" g hg
    simp [QuestionsGenerator.add_conversation_history, hist]

/-- Witness for C9 on the example filesystem and a fixed single-choice
oracle. -/
theorem app_seed_first_turn_spec_witness :
    app_initial_run fsEx (respondOk "您好，口試開始。")
      = .ok ({ generator :=
                 (genEx.add_conversation_history "開始口試").add_conversation_history
                   "您好，口試開始。"
               chat_log := [("你", "開始口試"), ("AI", "您好，口試開始。")]
               user_input := "開始口試"
               clear_input := true }, none) ∧
    ((genEx.add_conversation_history "開始口試").add_conversation_history
        "您好，口試開始。").conversation_history
      = [transcriptHeader, "開始口試", "您好，口試開始。"] :=
  app_seed_first_turn_spec fsEx (respondOk "您好，口試開始。") genEx
    { content := "您好，口試開始。" } [] rfl rfl

/-- C10.  The conversation history is created holding exactly the single
header entry, every reachable state's history still starts with that header
(so its length is one plus the number of appended turns, the tail), and the
rendered transcript sent as the user message of every completion request
begins with the header line. -/
theorem conversation_header_invariant {ε : Type} (fs : FS) (sid : String)
    (respond : ChatRequest → Except ε ChatCompletion) :
    (∀ g, QuestionsGenerator.init fs sid = .ok g →
      g.conversation_history = [transcriptHeader]) ∧
    (∀ s, Reachable fs sid respond s →
      s.conversation_history.head? = some transcriptHeader ∧
      s.conversation_history.length = 1 + s.conversation_history.tail.length ∧
      ∀ model, (s.buildRequest model).messages
          = [ { role := .system, content := s.system_prompt_template }
            , { role := .user, content := render_transcript s.conversation_history } ] ∧
        transcriptHeader.data.isPrefixOf
          (render_transcript s.conversation_history).data = true) := by
  refine ⟨fun g hg => init_history_eq fs sid g hg, fun s hs => ?_⟩
  obtain ⟨rest, hrest⟩ := reachable_history_cons fs sid respond s hs
  refine ⟨by rw [hrest]; rfl, by rw [hrest]; simp [Nat.add_comm], fun model => ⟨rfl, ?_⟩⟩
  obtain ⟨tail, htail⟩ := intercalate_cons_starts_with "\n" transcriptHeader rest
  rw [render_transcript, hrest, htail]
  rw [List.isPrefixOf_iff_prefix]
  exact ⟨tail.data, by rw [← String.data_append]⟩

/-- Witness for C10: the freshly constructed generator on the example
filesystem holds exactly the header, and after one seeded turn the reachable
state still has the header first and sends it as the start of the rendered
transcript. -/
theorem conversation_header_invariant_witness :
    genEx.conversation_history = [transcriptHeader] ∧
    ((genEx.start_process (respondOk "問題一") "開始口試").state.conversation_history.head?
        = some transcriptHeader ∧
      transcriptHeader.data.isPrefixOf
        (render_transcript
          (genEx.start_process (respondOk "問題一") "開始口試").state.conversation_history).data
        = true) := by
  have h := conversation_header_invariant fsEx "111403538" (respondOk "問題一")
  have h1 := h.1 genEx rfl
  have h2 := h.2 ((genEx.start_process (respondOk "問題一") "開始口試").state)
    (Reachable.step genEx "開始口試" (Reachable.init genEx rfl))
  exact ⟨h1, h2.1, (h2.2.2 "gpt-4o").2⟩

end MockInterview
